import Mathlib

/-!
Verification of the navigation session controller of
`src/screen/MapScreen.tsx` in the MapboxRouteMapDemo repository.

The component holds its trip state in React `useState` hooks and mutates it
from a handful of event handlers and promise continuations:
`fetchRoute`, `fetchSuggestions`, `updateNavigation`, `handleStepChange`,
`startNavigation`, `stopNavigation`, the 500 ms poll tick installed by
`startNavigationTracking`, and the suggestion-selection handler.

The embedding below models one snapshot of that state as a `TripState`
record and each handler or promise continuation as a function
`TripState → ... → TripState`.  JS numbers are modelled as exact rationals
where the code does arithmetic and comparisons on concrete data, and as
real numbers for the trigonometric haversine distance.  Camera commands
(`setCamera`, `fitBounds`) are outward effects on the map SDK and change no
trip state, so they are not modelled; the presence of the camera ref, which
the handlers use as a guard, is.  Network and geolocation results enter as
explicit arguments of the corresponding promise continuations.
-/

/-- A longitude/latitude pair in degrees, as the `[number, number]` arrays of
the source.  JS numbers are modelled by rationals; the trigonometric helpers
cast them into the reals. -/
structure Coord where
  lon : ℚ
  lat : ℚ
deriving DecidableEq, Inhabited

section
open scoped Classical

/-- `Math.atan2(y, x)` as specified by ECMAScript (signed zeros and NaN are
outside the rational/real model). -/
noncomputable def atan2 (y x : ℝ) : ℝ :=
  if 0 < x then Real.arctan (y / x)
  else if x < 0 ∧ 0 ≤ y then Real.arctan (y / x) + Real.pi
  else if x < 0 then Real.arctan (y / x) - Real.pi
  else if 0 < y then Real.pi / 2
  else if y < 0 then -(Real.pi / 2)
  else 0

/-- `calculateDistance` (MapScreen.tsx lines 270-286): haversine great-circle
distance with Earth radius `R = 6371`, in kilometres. -/
noncomputable def calculateDistance (coord1 coord2 : Coord) : ℝ :=
  let lon1 : ℝ := coord1.lon
  let lat1 : ℝ := coord1.lat
  let lon2 : ℝ := coord2.lon
  let lat2 : ℝ := coord2.lat
  let R : ℝ := 6371
  let dLat : ℝ := (lat2 - lat1) * (Real.pi / 180)
  let dLon : ℝ := (lon2 - lon1) * (Real.pi / 180)
  let a : ℝ :=
    Real.sin (dLat / 2) * Real.sin (dLat / 2) +
      Real.cos (lat1 * (Real.pi / 180)) * Real.cos (lat2 * (Real.pi / 180)) *
        Real.sin (dLon / 2) * Real.sin (dLon / 2)
  R * atan2 (Real.sqrt a) (Real.sqrt (1 - a)) * 2

end

/-- `s.padStart(2, "0")`: prepend zeros until the string is at least two
characters long. -/
def padStart2 (s : String) : String :=
  if s.length < 2 then String.mk (List.replicate (2 - s.length) '0') ++ s else s

/-- Truncation toward zero, as used by the JS remainder operator. -/
def jsTrunc (q : ℚ) : ℤ :=
  if 0 ≤ q then Rat.floor q else Rat.ceil q

/-- The JS remainder operator `x % y`: `x - y * trunc(x / y)`. -/
def jsMod (x y : ℚ) : ℚ :=
  x - y * (jsTrunc (x / y) : ℤ)

/-- `Math.round`: round half toward positive infinity. -/
def jsRound (x : ℚ) : ℤ :=
  Rat.floor (x + 1 / 2)

/-- `Math.floor` on a JS number. -/
def jsFloor (x : ℚ) : ℤ :=
  Rat.floor x

/-- `formatDuration` (MapScreen.tsx lines 56-62): format a (possibly
fractional) minute count as `HH:MM` via `Math.floor(minutes / 60)` and
`Math.round(minutes % 60)`, both fields padded with `padStart(2, "0")`. -/
def formatDuration (minutes : ℚ) : String :=
  let hours : ℤ := jsFloor (minutes / 60)
  let mins : ℤ := jsRound (jsMod minutes 60)
  padStart2 (Int.repr hours) ++ ":" ++ padStart2 (Int.repr mins)

/-- `Number.prototype.toFixed(1)`: one decimal digit, ties away from the
smaller value (the ECMAScript spec picks the larger candidate integer). -/
def toFixed1 (q : ℚ) : String :=
  let n : ℤ := Rat.floor (q * 10 + 1 / 2)
  (if n < 0 then "-" else "") ++ Nat.repr (n.natAbs / 10) ++ "." ++ Nat.repr (n.natAbs % 10)

/-- One step of a directions route: the fields of the provider's step objects
that the component reads (`maneuver.instruction`,
`maneuver.location.coordinates`, `distance` in metres, `duration` in
seconds). -/
structure RouteStep where
  instruction : String
  maneuverCoord : Coord
  distance : ℚ
  duration : ℚ
deriving DecidableEq, Inhabited

/-- The GeoJSON line geometry of a route (`routes[0].geometry`), stored
opaquely by the component and handed to the map's shape source. -/
structure Geometry where
  coordinates : List Coord
deriving DecidableEq, Inhabited

/-- One entry of `data.routes` in a directions response, with exactly the
fields the component reads: geometry, total distance (metres), total
duration (seconds), and `legs[0].steps`.  The step list is optional because
the payload may be malformed: `steps = none` models a route whose
`legs[0].steps` access throws (missing or empty `legs`), which in the code
happens only AFTER `setRoute` and `setRouteInfo` have already run. -/
structure DirectionsRoute where
  geometry : Geometry
  distance : ℚ
  duration : ℚ
  steps : Option (List RouteStep)
deriving DecidableEq, Inhabited

/-- A geocoding suggestion as stored by the component:
`{name: feature.place_name, coords: feature.center}`. -/
structure Suggestion where
  name : String
  coords : Coord
deriving DecidableEq, Inhabited

/-- The `routeInfo` state hook: four display strings, all initially null. -/
structure RouteInfo where
  distance : Option String
  duration : Option String
  remainingDistance : Option String
  remainingDuration : Option String
deriving DecidableEq, Inhabited

/-- Outcome of an awaited `fetch(...).json()`: a thrown network/parse error,
or a parsed payload. -/
inductive FetchResult (α : Type) where
  | error : FetchResult α
  | ok : α → FetchResult α
deriving DecidableEq

/-- One snapshot of the component's mutable state: the `useState` hooks
(`currentLocation`, `destination`, `route`, `steps`, `currentStepIndex`,
`routeInfo`, `query`, `suggestions`, `isNavigating`, `loading`,
`isMapInteracting`, `currentHeading`) together with the refs that the
handlers branch on (`cameraRef` presence, `locationInterval` presence,
`isMounted`). -/
structure TripState where
  currentLocation : Option Coord
  destination : Option Coord
  route : Option Geometry
  steps : List RouteStep
  currentStepIndex : Nat
  routeInfo : RouteInfo
  query : String
  suggestions : List Suggestion
  isNavigating : Bool
  loading : Bool
  isMapInteracting : Bool
  currentHeading : ℚ
  cameraRef : Bool
  locationInterval : Bool
  isMounted : Bool
deriving DecidableEq, Inhabited

/-- The state at mount: every hook at its `useState` initial value,
`isMounted.current = true`, no camera ref attached yet, no timer. -/
def initialState : TripState :=
  { currentLocation := none
    destination := none
    route := none
    steps := []
    currentStepIndex := 0
    routeInfo := { distance := none, duration := none, remainingDistance := none, remainingDuration := none }
    query := ""
    suggestions := []
    isNavigating := false
    loading := true
    isMapInteracting := false
    currentHeading := 0
    cameraRef := false
    locationInterval := false
    isMounted := true }

/-- The accumulation loop of `updateNavigation` (MapScreen.tsx lines 137-142):
`for (let i = currentStepIndex; i < steps.length; i++)` summing `distance`
and `duration` of each step. -/
def sumFrom (steps : List RouteStep) (i : Nat) : ℚ × ℚ :=
  ((steps.drop i).foldl (fun acc st => acc + st.distance) 0,
   (steps.drop i).foldl (fun acc st => acc + st.duration) 0)

/-- `handleStepChange` (MapScreen.tsx lines 210-236): guard
`newIndex < 0 || newIndex >= steps.length || !currentLocation ||
!cameraRef.current`, then `setCurrentStepIndex(newIndex)`.  The `newIndex < 0`
guard is unreachable here because the remaining call site passes
`currentStepIndex + 1` (the decrement buttons are commented out), so the index
is a natural number.  The handler also recenters the camera (an external
effect) and fires `fetchRoute(currentLocation, stepCoords)`, whose eventual
effect is modelled by `fetchRouteResolve`. -/
def handleStepChange (s : TripState) (newIndex : Nat) : TripState :=
  if s.steps.length ≤ newIndex ∨ s.currentLocation = none ∨ s.cameraRef = false then s
  else { s with currentStepIndex := newIndex }

/-- The synchronous part of `stopNavigation` (MapScreen.tsx lines 238-255):
flags off, index 0, route/steps/routeInfo cleared, interval cleared; all
guarded by `isMounted.current`.  The final location fix after the `await` is
modelled by `stopNavigationResolve`. -/
def stopNavigationSync (s : TripState) : TripState :=
  if s.isMounted = false then s
  else
    { s with
        isNavigating := false
        currentStepIndex := 0
        route := none
        steps := []
        routeInfo := { distance := none, duration := none, remainingDistance := none, remainingDuration := none }
        locationInterval := false }

section
open scoped Classical

/-- `updateNavigation` (MapScreen.tsx lines 127-157): bail out unless there
are steps, a camera and a mounted component; recompute the remaining
distance/duration display from the active index to the end; then, if the
haversine distance (km) to the active step's maneuver coordinate is below
0.03 (30 metres), either advance to the next step or, on the last step, stop
navigation. -/
noncomputable def updateNavigation (s : TripState) (location : Coord) : TripState :=
  if s.steps.length = 0 ∨ s.cameraRef = false ∨ s.isMounted = false then s
  else
    let currentStep := s.steps.getD s.currentStepIndex default
    let distanceToStep : ℝ := calculateDistance location currentStep.maneuverCoord
    let rem := sumFrom s.steps s.currentStepIndex
    let s1 : TripState :=
      { s with
          routeInfo :=
            { s.routeInfo with
                remainingDistance := some (toFixed1 (rem.1 / 1000))
                remainingDuration := some (formatDuration (rem.2 / 60)) } }
    if distanceToStep < 0.03 ∧ s.currentStepIndex < s.steps.length - 1 then
      handleStepChange s1 (s.currentStepIndex + 1)
    else if distanceToStep < 0.03 then
      stopNavigationSync s1
    else s1

end

/-- The continuation of `fetchRoute` (MapScreen.tsx lines 64-99) once
`fetch(url).json()` has settled.  `FetchResult.error` is a network or JSON
error (only logged); `ok none` is a payload without a usable `routes` field;
`ok (some [])` an empty route list (`data.routes?.length` falsy).  On a
non-empty list, guarded by `isMounted.current`, the component runs
`setRoute(routeData.geometry)` and `setRouteInfo({...})` first and only then
evaluates `routeData.legs[0].steps`: when that access throws (a malformed
first route, `routeData.steps = none` here), the exception is caught and
logged but the route and the four `routeInfo` strings have ALREADY been
replaced — the state is partially mutated.  With a readable step list the
steps are stored as well.  `startCoord`/`destCoord` feed only the
`fitBounds` camera call. -/
def fetchRouteResolve (s : TripState) (startCoord destCoord : Coord)
    (resp : FetchResult (Option (List DirectionsRoute))) : TripState :=
  match resp with
  | .error => s
  | .ok none => s
  | .ok (some []) => s
  | .ok (some (routeData :: _)) =>
    if s.isMounted = true then
      match routeData.steps with
      | some sts =>
        { s with
            route := some routeData.geometry
            routeInfo :=
              { distance := some (toFixed1 (routeData.distance / 1000))
                duration := some (formatDuration (routeData.duration / 60))
                remainingDistance := some (toFixed1 (routeData.distance / 1000))
                remainingDuration := some (formatDuration (routeData.duration / 60)) }
            steps := sts }
      | none =>
        { s with
            route := some routeData.geometry
            routeInfo :=
              { distance := some (toFixed1 (routeData.distance / 1000))
                duration := some (formatDuration (routeData.duration / 60))
                remainingDistance := some (toFixed1 (routeData.distance / 1000))
                remainingDuration := some (formatDuration (routeData.duration / 60)) } }
    else s

/-- The continuation of `fetchSuggestions` (MapScreen.tsx lines 101-125) once
the geocoding request has settled: errors are logged only, a payload without
a `features` field does nothing, and a feature list is stored when still
mounted. -/
def fetchSuggestionsResolve (s : TripState)
    (resp : FetchResult (Option (List Suggestion))) : TripState :=
  match resp with
  | .error => s
  | .ok none => s
  | .ok (some features) =>
    if s.isMounted = true then { s with suggestions := features } else s

/-- The continuation of one poll tick of `startNavigationTracking`
(MapScreen.tsx lines 187-207) after `getCurrentPositionSafe` has resolved
with a position: if still mounted, store the location and heading, run
`updateNavigation`, and recenter the camera (external effect). -/
noncomputable def pollTickResolve (s : TripState) (coords : Coord) (heading : ℚ) : TripState :=
  if s.isMounted = true then
    updateNavigation { s with currentLocation := some coords, currentHeading := heading } coords
  else s

/-- One whole poll tick (MapScreen.tsx lines 187-207): skipped while the user
is interacting with the map or after unmount; a failed or dropped location
request (`locationData = none`) skips the tick. -/
noncomputable def pollTick (s : TripState) (locationData : Option (Coord × ℚ)) : TripState :=
  if s.isMapInteracting = true ∨ s.isMounted = false then s
  else
    match locationData with
    | none => s
    | some (coords, heading) => pollTickResolve s coords heading

/-- `startNavigation` (MapScreen.tsx lines 288-299): only when
`currentLocation`, `destination` and the camera ref are all present, set the
navigating flag and reset the step index; otherwise do nothing. -/
def startNavigation (s : TripState) : TripState :=
  if s.currentLocation ≠ none ∧ s.destination ≠ none ∧ s.cameraRef = true then
    { s with isNavigating := true, currentStepIndex := 0 }
  else s

/-- The effect `if (isNavigating && currentLocation && destination)
startNavigationTracking()` (MapScreen.tsx lines 333-336): install the
repeating poll timer. -/
def startNavigationTracking (s : TripState) : TripState :=
  if s.isNavigating = true ∧ s.currentLocation ≠ none ∧ s.destination ≠ none then
    { s with locationInterval := true }
  else s

/-- The continuation of `stopNavigation` after its final `await`
(MapScreen.tsx lines 257-267): one last location fix, stored only when it
succeeded, the component is still mounted and the camera is present. -/
def stopNavigationResolve (s : TripState) (locationData : Option (Coord × ℚ)) : TripState :=
  match locationData with
  | none => s
  | some (coords, heading) =>
    if s.isMounted = true ∧ s.cameraRef = true then
      { s with currentLocation := some coords, currentHeading := heading }
    else s

/-- The continuation of the initial `getCurrentLocation` (MapScreen.tsx lines
338-345): store the first fix and clear the loading flag, when mounted. -/
def getCurrentLocationResolve (s : TripState) (locationData : Option (Coord × ℚ)) : TripState :=
  match locationData with
  | none => s
  | some (coords, heading) =>
    if s.isMounted = true then
      { s with currentLocation := some coords, currentHeading := heading, loading := false }
    else s

/-- The suggestion `onPress` handler (MapScreen.tsx lines 390-396): when
mounted, set the query text, set the destination to the item's coordinates
and clear the suggestion list. -/
def selectSuggestion (s : TripState) (item : Suggestion) : TripState :=
  if s.isMounted = true then
    { s with query := item.name, destination := some item.coords, suggestions := [] }
  else s

/-- The `onChangeText` handler plus the synchronous entry of
`fetchSuggestions`: store the query; empty input (or an unmounted component)
clears the suggestions without a network call, otherwise a request is issued
whose effect is `fetchSuggestionsResolve`. -/
def onChangeQuery (s : TripState) (text : String) : TripState :=
  let s1 := { s with query := text }
  if text = "" ∨ s1.isMounted = false then { s1 with suggestions := [] } else s1

/-- The unmount cleanup (MapScreen.tsx lines 322-325): drop the liveness flag
and clear the poll timer. -/
def unmountComponent (s : TripState) : TripState :=
  { s with isMounted := false, locationInterval := false }

/-- The states the component can actually be in: the initial state, closed
under every handler and promise continuation, with arbitrary environment
responses.  A poll tick requires the interval timer to be installed. -/
inductive Reachable : TripState → Prop where
  | init : Reachable initialState
  | cameraSet {s : TripState} (b : Bool) : Reachable s → Reachable { s with cameraRef := b }
  | interact {s : TripState} (b : Bool) : Reachable s → Reachable { s with isMapInteracting := b }
  | unmount {s : TripState} : Reachable s → Reachable (unmountComponent s)
  | locationInit {s : TripState} (ld : Option (Coord × ℚ)) :
      Reachable s → Reachable (getCurrentLocationResolve s ld)
  | typeQuery {s : TripState} (text : String) : Reachable s → Reachable (onChangeQuery s text)
  | suggResolve {s : TripState} (resp : FetchResult (Option (List Suggestion))) :
      Reachable s → Reachable (fetchSuggestionsResolve s resp)
  | select {s : TripState} (item : Suggestion) : Reachable s → Reachable (selectSuggestion s item)
  | routeResolve {s : TripState} (a b : Coord) (resp : FetchResult (Option (List DirectionsRoute))) :
      Reachable s → Reachable (fetchRouteResolve s a b resp)
  | startNav {s : TripState} : Reachable s → Reachable (startNavigation s)
  | startTracking {s : TripState} : Reachable s → Reachable (startNavigationTracking s)
  | tick {s : TripState} (ld : Option (Coord × ℚ)) :
      Reachable s → s.locationInterval = true → Reachable (pollTick s ld)
  | stopNavStart {s : TripState} : Reachable s → Reachable (stopNavigationSync s)
  | stopNavFix {s : TripState} (ld : Option (Coord × ℚ)) :
      Reachable s → Reachable (stopNavigationResolve s ld)

/-! ### Helper lemmas -/

/-- Batteries' executable `Rat.floor` agrees with the mathematical floor. -/
lemma ratFloor_eq (q : ℚ) : Rat.floor q = ⌊q⌋ := by
  rw [Rat.floor_def', Rat.floor_def]

/-- The haversine distance from a point to itself is zero. -/
lemma calculateDistance_self (c : Coord) : calculateDistance c c = 0 := by
  simp only [calculateDistance, sub_self, zero_mul, zero_div, Real.sin_zero, mul_zero, zero_add,
    add_zero, Real.sqrt_zero, sub_zero, Real.sqrt_one]
  rw [atan2, if_pos one_pos]
  simp

/-- The haversine distance is symmetric in its two arguments. -/
lemma calculateDistance_comm (c1 c2 : Coord) :
    calculateDistance c1 c2 = calculateDistance c2 c1 := by
  simp only [calculateDistance]
  have e1 : ((c2.lat : ℝ) - (c1.lat : ℝ)) * (Real.pi / 180) / 2 =
      -(((c1.lat : ℝ) - (c2.lat : ℝ)) * (Real.pi / 180) / 2) := by ring
  have e2 : ((c2.lon : ℝ) - (c1.lon : ℝ)) * (Real.pi / 180) / 2 =
      -(((c1.lon : ℝ) - (c2.lon : ℝ)) * (Real.pi / 180) / 2) := by ring
  rw [e1, e2, Real.sin_neg, Real.sin_neg]
  ring_nf

/-- `updateNavigation` in the step-advance case: guards pass, the active step
is within 30 m and is not the last one. -/
lemma updateNavigation_advance (s : TripState) (loc : Coord)
    (hcam : s.cameraRef = true) (hm : s.isMounted = true)
    (hidx : s.currentStepIndex < s.steps.length - 1)
    (hnear : calculateDistance loc ((s.steps.getD s.currentStepIndex default).maneuverCoord) < 0.03) :
    updateNavigation s loc = handleStepChange
      { s with routeInfo := { s.routeInfo with
          remainingDistance := some (toFixed1 ((sumFrom s.steps s.currentStepIndex).1 / 1000))
          remainingDuration := some (formatDuration ((sumFrom s.steps s.currentStepIndex).2 / 60)) } }
      (s.currentStepIndex + 1) := by
  have hne : s.steps.length ≠ 0 := by omega
  rw [updateNavigation, if_neg (by simp [hne, hcam, hm]), if_pos ⟨hnear, hidx⟩]

/-- `updateNavigation` in the terminal case: guards pass, the active step is
the last one and it is within 30 m. -/
lemma updateNavigation_stop (s : TripState) (loc : Coord)
    (hcam : s.cameraRef = true) (hm : s.isMounted = true)
    (hne : s.steps ≠ [])
    (hlast : s.currentStepIndex = s.steps.length - 1)
    (hnear : calculateDistance loc ((s.steps.getD s.currentStepIndex default).maneuverCoord) < 0.03) :
    updateNavigation s loc = stopNavigationSync
      { s with routeInfo := { s.routeInfo with
          remainingDistance := some (toFixed1 ((sumFrom s.steps s.currentStepIndex).1 / 1000))
          remainingDuration := some (formatDuration ((sumFrom s.steps s.currentStepIndex).2 / 60)) } } := by
  have hlen : s.steps.length ≠ 0 := by
    simpa using List.length_eq_zero.not.mpr hne
  rw [updateNavigation, if_neg (by simp [hlen, hcam, hm]),
    if_neg (by rintro ⟨-, h⟩; omega), if_pos hnear]

/-- `updateNavigation` in the still-far case: guards pass and the active step
is 30 m away or more, so only the remaining-distance display changes. -/
lemma updateNavigation_far (s : TripState) (loc : Coord)
    (hcam : s.cameraRef = true) (hm : s.isMounted = true)
    (hne : s.steps ≠ [])
    (hfar : ¬ calculateDistance loc ((s.steps.getD s.currentStepIndex default).maneuverCoord) < 0.03) :
    updateNavigation s loc =
      { s with routeInfo := { s.routeInfo with
          remainingDistance := some (toFixed1 ((sumFrom s.steps s.currentStepIndex).1 / 1000))
          remainingDuration := some (formatDuration ((sumFrom s.steps s.currentStepIndex).2 / 60)) } } := by
  have hlen : s.steps.length ≠ 0 := by
    simpa using List.length_eq_zero.not.mpr hne
  rw [updateNavigation, if_neg (by simp [hlen, hcam, hm]),
    if_neg (by rintro ⟨h, -⟩; exact hfar h), if_neg hfar]

/-- Folding `acc + f st` over a list starting from `a` is `a` plus the sum of
the mapped list (the loop of `updateNavigation` as a sum). -/
lemma foldl_add_map (l : List RouteStep) (f : RouteStep → ℚ) (a : ℚ) :
    l.foldl (fun acc st => acc + f st) a = a + (l.map f).sum := by
  induction l generalizing a with
  | nil => simp
  | cons hd tl ih => simp [ih, add_assoc]

/-- The accumulation loop computes exactly the suffix sums of the step
distances and durations. -/
lemma sumFrom_eq (steps : List RouteStep) (i : ℕ) :
    sumFrom steps i =
      (((steps.drop i).map RouteStep.distance).sum,
       ((steps.drop i).map RouteStep.duration).sum) := by
  simp [sumFrom, foldl_add_map]

lemma handleStepChange_destination (s : TripState) (j : ℕ) :
    (handleStepChange s j).destination = s.destination := by
  rw [handleStepChange]; split_ifs <;> rfl

lemma handleStepChange_isNavigating (s : TripState) (j : ℕ) :
    (handleStepChange s j).isNavigating = s.isNavigating := by
  rw [handleStepChange]; split_ifs <;> rfl

lemma handleStepChange_routeInfo (s : TripState) (j : ℕ) :
    (handleStepChange s j).routeInfo = s.routeInfo := by
  rw [handleStepChange]; split_ifs <;> rfl

lemma handleStepChange_steps (s : TripState) (j : ℕ) :
    (handleStepChange s j).steps = s.steps := by
  rw [handleStepChange]; split_ifs <;> rfl

lemma stopNavigationSync_destination (s : TripState) :
    (stopNavigationSync s).destination = s.destination := by
  rw [stopNavigationSync]; split_ifs <;> rfl

lemma stopNavigationSync_isNavigating (s : TripState) :
    (stopNavigationSync s).isNavigating = true → s.isNavigating = true := by
  rw [stopNavigationSync]; split_ifs
  · exact fun hx => hx
  · simp

lemma updateNavigation_destination (s : TripState) (loc : Coord) :
    (updateNavigation s loc).destination = s.destination := by
  rw [updateNavigation]
  split_ifs with h
  · rfl
  · simp only []
    split_ifs <;> simp [handleStepChange_destination, stopNavigationSync_destination]

lemma updateNavigation_isNavigating (s : TripState) (loc : Coord) :
    (updateNavigation s loc).isNavigating = true → s.isNavigating = true := by
  rw [updateNavigation]
  split_ifs with h
  · exact fun hx => hx
  · simp only []
    split_ifs
    · rw [handleStepChange_isNavigating]; exact fun hx => hx
    · intro hx
      have hy := stopNavigationSync_isNavigating _ hx
      exact hy
    · exact fun hx => hx

lemma pollTick_destination (s : TripState) (ld : Option (Coord × ℚ)) :
    (pollTick s ld).destination = s.destination := by
  rw [pollTick.eq_def]
  split_ifs
  · rfl
  · match ld with
    | none => rfl
    | some (c, hd) =>
      show (pollTickResolve s c hd).destination = s.destination
      rw [pollTickResolve]
      split_ifs
      · rw [updateNavigation_destination]
      · rfl

lemma pollTick_isNavigating (s : TripState) (ld : Option (Coord × ℚ)) :
    (pollTick s ld).isNavigating = true → s.isNavigating = true := by
  rw [pollTick.eq_def]
  split_ifs
  · exact fun hx => hx
  · match ld with
    | none => exact fun hx => hx
    | some (c, hd) =>
      show (pollTickResolve s c hd).isNavigating = true → s.isNavigating = true
      rw [pollTickResolve]
      split_ifs
      · intro hx
        have hy := updateNavigation_isNavigating _ _ hx
        exact hy
      · exact fun hx => hx

lemma fetchRouteResolve_currentStepIndex (s : TripState) (a b : Coord)
    (resp : FetchResult (Option (List DirectionsRoute))) :
    (fetchRouteResolve s a b resp).currentStepIndex = s.currentStepIndex := by
  match resp with
  | .error => rfl
  | .ok none => rfl
  | .ok (some []) => rfl
  | .ok (some (r :: t)) =>
    simp only [fetchRouteResolve]
    split_ifs
    · cases r.steps <;> rfl
    · rfl

/-! ### Arithmetic bridge lemmas for `formatDuration` on integer inputs -/

lemma jsFloor_natCast_div (n : ℕ) : jsFloor ((n : ℚ) / 60) = (n / 60 : ℕ) := by
  rw [jsFloor, ratFloor_eq]
  exact_mod_cast Rat.floor_natCast_div_natCast n 60

lemma jsMod_natCast (n : ℕ) : jsMod (n : ℚ) 60 = ((n % 60 : ℕ) : ℚ) := by
  rw [jsMod, jsTrunc, if_pos (by positivity), ratFloor_eq,
    show ⌊(n : ℚ) / 60⌋ = ((n / 60 : ℕ) : ℤ) from by
      exact_mod_cast Rat.floor_natCast_div_natCast n 60]
  have h : (60 : ℚ) * ((n / 60 : ℕ) : ℚ) + ((n % 60 : ℕ) : ℚ) = (n : ℚ) := by
    exact_mod_cast congrArg (fun k : ℕ => (k : ℚ)) (Nat.div_add_mod n 60)
  have h2 : (((n / 60 : ℕ) : ℤ) : ℚ) = ((n / 60 : ℕ) : ℚ) := by norm_cast
  rw [h2]
  linarith

lemma jsRound_natCast (k : ℕ) : jsRound ((k : ℕ) : ℚ) = (k : ℤ) := by
  rw [jsRound, ratFloor_eq, Int.floor_eq_iff]
  constructor
  · push_cast
    linarith
  · push_cast
    linarith

lemma intRepr_natCast (m : ℕ) : Int.repr (m : ℤ) = Nat.repr m := rfl

lemma padStart2_mod60_length : ∀ k : ℕ, k < 60 → (padStart2 (Nat.repr k)).length = 2 := by
  decide

/-! ### Sample data used by the concrete witnesses and counterexamples -/

def stepA : RouteStep := ⟨"Head north on Main St", ⟨3, 3⟩, 400, 120⟩

def stepB : RouteStep := ⟨"Turn right onto 2nd Ave", ⟨4, 4⟩, 600, 480⟩

def stepC : RouteStep := ⟨"You have arrived", ⟨5, 5⟩, 50, 30⟩

def geomAB : Geometry := ⟨[⟨1, 1⟩, ⟨3, 3⟩, ⟨4, 4⟩]⟩

def geomC : Geometry := ⟨[⟨3, 3⟩, ⟨5, 5⟩]⟩

def routeAB : DirectionsRoute := ⟨geomAB, 1000, 600, some [stepA, stepB]⟩

def routeC : DirectionsRoute := ⟨geomC, 50, 30, some [stepC]⟩

/-- A malformed first route: geometry and totals readable, but the
`legs[0].steps` access throws. -/
def malformedRoute : DirectionsRoute := ⟨geomC, 50, 30, none⟩

/-- A mounted state with camera, a first location fix and a chosen
destination. -/
def baseState : TripState :=
  { initialState with
      cameraRef := true
      currentLocation := some ⟨1, 1⟩
      destination := some ⟨2, 2⟩
      loading := false }

/-- A mid-navigation state: two-step route installed, active step index 1. -/
def midNavState : TripState :=
  { baseState with
      route := some geomAB
      steps := [stepA, stepB]
      currentStepIndex := 1
      isNavigating := true
      locationInterval := true }

/-- An unmounted (torn-down) state. -/
def deadState : TripState := { initialState with isMounted := false }

/-! ### Claims -/

/-- Claim C8: the haversine distance `calculateDistance` is symmetric,
`calculateDistance A B = calculateDistance B A`, and vanishes on the
diagonal, `calculateDistance A A = 0`. -/
theorem c8_haversine_symm_and_self :
    (∀ a b : Coord, calculateDistance a b = calculateDistance b a) ∧
    (∀ a : Coord, calculateDistance a a = 0) :=
  ⟨calculateDistance_comm, calculateDistance_self⟩

/-- Claim C9, counterexample: `formatDuration` is also called on fractional
minute counts (`routeData.duration / 60` and `remainingDuration / 60` are not
integers in general), and at the non-negative input `59.5` the rendered
minutes field is `"60"`, outside the claimed `00`–`59` range. -/
theorem c9_counterexample :
    (0 : ℚ) ≤ 119 / 2 ∧ formatDuration (119 / 2) = "00:60" := by
  refine ⟨by norm_num, ?_⟩
  have h1 : jsFloor ((119 : ℚ) / 2 / 60) = 0 := by
    rw [jsFloor, ratFloor_eq]
    rw [Int.floor_eq_iff] <;> norm_num
  have h2 : jsMod ((119 : ℚ) / 2) 60 = 119 / 2 := by
    rw [jsMod, jsTrunc, if_pos (by norm_num), ratFloor_eq,
      show ⌊(119 : ℚ) / 2 / 60⌋ = 0 from by rw [Int.floor_eq_iff] <;> norm_num]
    norm_num
  have h3 : jsRound ((119 : ℚ) / 2) = 60 := by
    rw [jsRound, ratFloor_eq]
    rw [Int.floor_eq_iff] <;> norm_num
  simp only [formatDuration]
  rw [h1, h2, h3]
  decide

/-- Claim C9, amended: for every non-negative integer minute count `m`,
`formatDuration m` renders `HH:MM` with both fields zero-padded to (at
least) two digits and the minutes field in the range 00–59; in particular
`formatDuration 90 = "01:30"` and `formatDuration 5 = "00:05"`.  (For
fractional inputs `Math.round(minutes % 60)` can render a `"60"` minutes
field, see the counterexample.) -/
theorem c9_formatDuration_integer_minutes :
    (∀ n : ℕ,
      formatDuration (n : ℚ) =
        padStart2 (Nat.repr (n / 60)) ++ ":" ++ padStart2 (Nat.repr (n % 60)) ∧
      n % 60 < 60 ∧ (padStart2 (Nat.repr (n % 60))).length = 2) ∧
    formatDuration 90 = "01:30" ∧ formatDuration 5 = "00:05" := by
  have main : ∀ n : ℕ, formatDuration (n : ℚ) =
      padStart2 (Nat.repr (n / 60)) ++ ":" ++ padStart2 (Nat.repr (n % 60)) := by
    intro n
    simp only [formatDuration]
    rw [jsFloor_natCast_div, jsMod_natCast, jsRound_natCast]
    simp only [intRepr_natCast]
  refine ⟨fun n => ⟨main n, Nat.mod_lt _ (by norm_num),
    padStart2_mod60_length _ (Nat.mod_lt _ (by norm_num))⟩, ?_, ?_⟩
  · rw [show (90 : ℚ) = ((90 : ℕ) : ℚ) by norm_cast, main 90]
    decide
  · rw [show (5 : ℚ) = ((5 : ℕ) : ℚ) by norm_cast, main 5]
    decide

/-- Claim C10: whenever `currentLocation` or `destination` is null,
`startNavigation` leaves the entire trip state unchanged. -/
theorem c10_startNavigation_noop (s : TripState)
    (h : s.currentLocation = none ∨ s.destination = none) :
    startNavigation s = s := by
  rw [startNavigation, if_neg]
  rintro ⟨h1, h2, -⟩
  rcases h with h | h
  · exact h1 h
  · exact h2 h

/-- Claim C10, witness: the initial state has no location and no destination,
and `startNavigation` on it is the identity. -/
theorem c10_witness :
    (initialState.currentLocation = none ∨ initialState.destination = none) ∧
    startNavigation initialState = initialState :=
  ⟨Or.inl rfl, c10_startNavigation_noop initialState (Or.inl rfl)⟩

/-- Claim C5, counterexample: not every malformed response leaves the state
untouched.  A response whose route list is non-empty but whose first route
has no readable `legs[0].steps` makes `fetchRoute` run `setRoute` and
`setRouteInfo` BEFORE throwing at `routeData.legs[0].steps`
(MapScreen.tsx lines 76-83): on a concrete mounted state the route field
changes (and the step list does not), so the state is partially mutated, not
"left exactly as it was". -/
theorem c5_counterexample :
    fetchRouteResolve baseState ⟨1, 1⟩ ⟨2, 2⟩ (.ok (some [malformedRoute])) ≠ baseState ∧
    (fetchRouteResolve baseState ⟨1, 1⟩ ⟨2, 2⟩ (.ok (some [malformedRoute]))).route =
      some malformedRoute.geometry ∧
    (fetchRouteResolve baseState ⟨1, 1⟩ ⟨2, 2⟩ (.ok (some [malformedRoute]))).steps =
      baseState.steps := by
  refine ⟨?_, rfl, rfl⟩
  intro h
  have hr := congrArg TripState.route h
  simp [fetchRouteResolve, baseState, initialState, malformedRoute] at hr

/-- Claim C5, amended: a thrown network/parse error, a payload without the
expected `routes`/`features` field, and an empty route list all leave the
whole trip state exactly as it was (the failure is only logged); but a
malformed response whose first route lacks a readable `legs[0].steps`
partially mutates the state while mounted: `route` and all four `routeInfo`
strings are replaced before the exception, while `steps`,
`activeStepIndex`, `suggestions`, `destination` and the navigating flag are
unchanged. -/
theorem c5_failed_fetch_state_unchanged (s : TripState) (a b : Coord)
    (mal : DirectionsRoute) (rest : List DirectionsRoute)
    (hm : s.isMounted = true) (hmal : mal.steps = none) :
    fetchRouteResolve s a b .error = s ∧
    fetchRouteResolve s a b (.ok none) = s ∧
    fetchRouteResolve s a b (.ok (some [])) = s ∧
    fetchSuggestionsResolve s .error = s ∧
    fetchSuggestionsResolve s (.ok none) = s ∧
    fetchRouteResolve s a b (.ok (some (mal :: rest))) =
      { s with
          route := some mal.geometry
          routeInfo :=
            { distance := some (toFixed1 (mal.distance / 1000))
              duration := some (formatDuration (mal.duration / 60))
              remainingDistance := some (toFixed1 (mal.distance / 1000))
              remainingDuration := some (formatDuration (mal.duration / 60)) } } := by
  refine ⟨rfl, rfl, rfl, rfl, rfl, ?_⟩
  simp only [fetchRouteResolve]
  rw [if_pos hm, hmal]

/-- Claim C5, witness: the amended statement at a concrete mounted state with
a concrete malformed first route. -/
theorem c5_witness :
    baseState.isMounted = true ∧ malformedRoute.steps = none ∧
    (fetchRouteResolve baseState ⟨1, 1⟩ ⟨2, 2⟩ .error = baseState ∧
     fetchRouteResolve baseState ⟨1, 1⟩ ⟨2, 2⟩ (.ok none) = baseState ∧
     fetchRouteResolve baseState ⟨1, 1⟩ ⟨2, 2⟩ (.ok (some [])) = baseState ∧
     fetchSuggestionsResolve baseState .error = baseState ∧
     fetchSuggestionsResolve baseState (.ok none) = baseState ∧
     fetchRouteResolve baseState ⟨1, 1⟩ ⟨2, 2⟩ (.ok (some [malformedRoute])) =
       { baseState with
           route := some malformedRoute.geometry
           routeInfo :=
             { distance := some (toFixed1 (malformedRoute.distance / 1000))
               duration := some (formatDuration (malformedRoute.duration / 60))
               remainingDistance := some (toFixed1 (malformedRoute.distance / 1000))
               remainingDuration := some (formatDuration (malformedRoute.duration / 60)) } }) :=
  ⟨rfl, rfl, c5_failed_fetch_state_unchanged baseState ⟨1, 1⟩ ⟨2, 2⟩ malformedRoute [] rfl rfl⟩

/-- Claim C6: once the liveness flag is down (`isMounted.current = false`),
every promise continuation — route fetch, suggestion fetch, poll-tick
location fetch, stop-navigation location fix, initial location fix — is a
no-op on the trip state. -/
theorem c6_post_teardown_noop (s : TripState) (h : s.isMounted = false) :
    (∀ (a b : Coord) (resp : FetchResult (Option (List DirectionsRoute))),
      fetchRouteResolve s a b resp = s) ∧
    (∀ resp : FetchResult (Option (List Suggestion)), fetchSuggestionsResolve s resp = s) ∧
    (∀ (c : Coord) (hd : ℚ), pollTickResolve s c hd = s) ∧
    (∀ ld : Option (Coord × ℚ), stopNavigationResolve s ld = s) ∧
    (∀ ld : Option (Coord × ℚ), getCurrentLocationResolve s ld = s) := by
  refine ⟨?_, ?_, ?_, ?_, ?_⟩
  · intro a b resp
    match resp with
    | .error => rfl
    | .ok none => rfl
    | .ok (some []) => rfl
    | .ok (some (r :: t)) => simp [fetchRouteResolve, h]
  · intro resp
    match resp with
    | .error => rfl
    | .ok none => rfl
    | .ok (some f) => simp [fetchSuggestionsResolve, h]
  · intro c hd
    rw [pollTickResolve, if_neg (by simp [h])]
  · intro ld
    match ld with
    | none => rfl
    | some (c, hd) => simp [stopNavigationResolve, h]
  · intro ld
    match ld with
    | none => rfl
    | some (c, hd) => simp [getCurrentLocationResolve, h]

/-- Claim C6, witness: on a concrete torn-down state, each continuation with
a concrete successful result changes nothing. -/
theorem c6_witness :
    deadState.isMounted = false ∧
    fetchRouteResolve deadState ⟨1, 1⟩ ⟨2, 2⟩ (.ok (some [routeAB])) = deadState ∧
    fetchSuggestionsResolve deadState (.ok (some [⟨"Cafe", ⟨2, 2⟩⟩])) = deadState ∧
    pollTickResolve deadState ⟨1, 1⟩ 0 = deadState ∧
    stopNavigationResolve deadState (some (⟨1, 1⟩, 0)) = deadState ∧
    getCurrentLocationResolve deadState (some (⟨1, 1⟩, 0)) = deadState := by
  have h := c6_post_teardown_noop deadState rfl
  exact ⟨rfl, h.1 _ _ _, h.2.1 _, h.2.2.1 _ _, h.2.2.2.1 _, h.2.2.2.2 _⟩

/-- Claim C1, counterexample: a successful route fetch (the response holds
one route) does NOT reset the active step index: from a state with
`currentStepIndex = 1` the index is still 1 afterwards, even though the
newly installed step list has length 1. -/
theorem c1_counterexample :
    (fetchRouteResolve midNavState ⟨1, 1⟩ ⟨4, 4⟩ (.ok (some [routeC]))).currentStepIndex = 1 ∧
    (1 : ℕ) ≠ 0 :=
  ⟨rfl, by decide⟩

/-- Claim C1, amended: on a successful route fetch while mounted (at least
one route in the response, its `legs[0].steps` readable), `fetchRoute`
replaces the route geometry and the step list and sets both the total and the
remaining distance/duration from the new route's totals, but leaves
`currentStepIndex` unchanged (the index is reset only by `startNavigation`
and `stopNavigation`). -/
theorem c1_fetchRoute_success (s : TripState) (a b : Coord) (rd : DirectionsRoute)
    (rest : List DirectionsRoute) (sts : List RouteStep)
    (hm : s.isMounted = true) (hlegs : rd.steps = some sts) :
    fetchRouteResolve s a b (.ok (some (rd :: rest))) =
      { s with
          route := some rd.geometry
          steps := sts
          routeInfo :=
            { distance := some (toFixed1 (rd.distance / 1000))
              duration := some (formatDuration (rd.duration / 60))
              remainingDistance := some (toFixed1 (rd.distance / 1000))
              remainingDuration := some (formatDuration (rd.duration / 60)) } } ∧
    (fetchRouteResolve s a b (.ok (some (rd :: rest)))).currentStepIndex =
      s.currentStepIndex := by
  have h : fetchRouteResolve s a b (.ok (some (rd :: rest))) =
      { s with
          route := some rd.geometry
          steps := sts
          routeInfo :=
            { distance := some (toFixed1 (rd.distance / 1000))
              duration := some (formatDuration (rd.duration / 60))
              remainingDistance := some (toFixed1 (rd.distance / 1000))
              remainingDuration := some (formatDuration (rd.duration / 60)) } } := by
    simp only [fetchRouteResolve]
    rw [if_pos hm, hlegs]
  exact ⟨h, by rw [h]⟩

/-- Claim C1, witness: the amended statement at a concrete mid-navigation
state and a concrete well-formed one-route response. -/
theorem c1_witness :
    midNavState.isMounted = true ∧ routeC.steps = some [stepC] ∧
    (fetchRouteResolve midNavState ⟨1, 1⟩ ⟨4, 4⟩ (.ok (some [routeC])) =
      { midNavState with
          route := some routeC.geometry
          steps := [stepC]
          routeInfo :=
            { distance := some (toFixed1 (routeC.distance / 1000))
              duration := some (formatDuration (routeC.duration / 60))
              remainingDistance := some (toFixed1 (routeC.distance / 1000))
              remainingDuration := some (formatDuration (routeC.duration / 60)) } } ∧
      (fetchRouteResolve midNavState ⟨1, 1⟩ ⟨4, 4⟩ (.ok (some [routeC]))).currentStepIndex =
        midNavState.currentStepIndex) :=
  ⟨rfl, rfl, c1_fetchRoute_success midNavState ⟨1, 1⟩ ⟨4, 4⟩ routeC [] [stepC] rfl rfl⟩

/-- A navigating state whose active step is the last (and only) step. -/
def lastStepState : TripState :=
  { baseState with
      route := some geomC
      steps := [stepC]
      currentStepIndex := 0
      isNavigating := true
      locationInterval := true }

/-- Claim C4: on a poll tick while navigating (mounted, camera present, not
interacting), if the location is within 30 m (haversine < 0.03 km) of the
active step's maneuver coordinate and that step is the last one, the session
goes idle: `isNavigating` false, `route` null, `steps` empty,
`currentStepIndex` 0, and the poll timer cleared. -/
theorem c4_arrival_at_last_step_stops (s : TripState) (loc : Coord) (hd : ℚ)
    (hnav : s.isNavigating = true) (hm : s.isMounted = true) (hcam : s.cameraRef = true)
    (hint : s.isMapInteracting = false) (hne : s.steps ≠ [])
    (hlast : s.currentStepIndex = s.steps.length - 1)
    (hnear : calculateDistance loc ((s.steps.getD s.currentStepIndex default).maneuverCoord) < 0.03) :
    (pollTick s (some (loc, hd))).isNavigating = false ∧
    (pollTick s (some (loc, hd))).route = none ∧
    (pollTick s (some (loc, hd))).steps = [] ∧
    (pollTick s (some (loc, hd))).currentStepIndex = 0 ∧
    (pollTick s (some (loc, hd))).locationInterval = false := by
  have hA : pollTick s (some (loc, hd)) = pollTickResolve s loc hd := by
    rw [pollTick.eq_def, if_neg (by simp [hint, hm])]
  have hB : pollTickResolve s loc hd =
      updateNavigation { s with currentLocation := some loc, currentHeading := hd } loc := by
    rw [pollTickResolve, if_pos hm]
  have hC := updateNavigation_stop
    { s with currentLocation := some loc, currentHeading := hd } loc hcam hm hne hlast hnear
  have hD : stopNavigationSync
      { s with
          currentLocation := some loc
          currentHeading := hd
          routeInfo := { s.routeInfo with
            remainingDistance := some (toFixed1 ((sumFrom s.steps s.currentStepIndex).1 / 1000))
            remainingDuration := some (formatDuration ((sumFrom s.steps s.currentStepIndex).2 / 60)) } } =
      { s with
          currentLocation := some loc
          currentHeading := hd
          isNavigating := false
          currentStepIndex := 0
          route := none
          steps := []
          routeInfo := { distance := none, duration := none, remainingDistance := none,
                         remainingDuration := none }
          locationInterval := false } := by
    rw [stopNavigationSync, if_neg (by simp [hm])]
  rw [hA, hB, hC, hD]
  exact ⟨rfl, rfl, rfl, rfl, rfl⟩

/-- Claim C4, witness: arriving within 30 m of the single (hence last) step
of a concrete navigating state stops the session and clears the trip
fields. -/
theorem c4_witness :
    (lastStepState.isNavigating = true ∧ lastStepState.isMounted = true ∧
      lastStepState.cameraRef = true ∧ lastStepState.isMapInteracting = false ∧
      lastStepState.steps ≠ [] ∧
      lastStepState.currentStepIndex = lastStepState.steps.length - 1 ∧
      calculateDistance ⟨5, 5⟩
        ((lastStepState.steps.getD lastStepState.currentStepIndex default).maneuverCoord) < 0.03) ∧
    (pollTick lastStepState (some (⟨5, 5⟩, 0))).isNavigating = false ∧
    (pollTick lastStepState (some (⟨5, 5⟩, 0))).route = none ∧
    (pollTick lastStepState (some (⟨5, 5⟩, 0))).steps = [] ∧
    (pollTick lastStepState (some (⟨5, 5⟩, 0))).currentStepIndex = 0 ∧
    (pollTick lastStepState (some (⟨5, 5⟩, 0))).locationInterval = false := by
  have hnear : calculateDistance ⟨5, 5⟩
      ((lastStepState.steps.getD lastStepState.currentStepIndex default).maneuverCoord) < 0.03 := by
    have hc : (lastStepState.steps.getD lastStepState.currentStepIndex default).maneuverCoord =
        (⟨5, 5⟩ : Coord) := rfl
    rw [hc, calculateDistance_self]
    norm_num
  exact ⟨⟨rfl, rfl, rfl, rfl, by decide, rfl, hnear⟩,
    c4_arrival_at_last_step_stops lastStepState ⟨5, 5⟩ 0 rfl rfl rfl rfl (by decide) rfl hnear⟩

/-- Claim C7: on a poll tick with a non-empty step list and active index `i`
(when the tick does not terminate the session), the remaining distance and
duration recomputed for display are the sums of the step distances and
durations from index `i` through the last step. -/
theorem c7_remaining_equals_suffix_sum (s : TripState) (loc : Coord)
    (hcam : s.cameraRef = true) (hm : s.isMounted = true) (hne : s.steps ≠ [])
    (hnotstop : s.currentStepIndex < s.steps.length - 1 ∨
      ¬ calculateDistance loc ((s.steps.getD s.currentStepIndex default).maneuverCoord) < 0.03) :
    sumFrom s.steps s.currentStepIndex =
      (((s.steps.drop s.currentStepIndex).map RouteStep.distance).sum,
       ((s.steps.drop s.currentStepIndex).map RouteStep.duration).sum) ∧
    (updateNavigation s loc).routeInfo.remainingDistance =
      some (toFixed1 (((s.steps.drop s.currentStepIndex).map RouteStep.distance).sum / 1000)) ∧
    (updateNavigation s loc).routeInfo.remainingDuration =
      some (formatDuration (((s.steps.drop s.currentStepIndex).map RouteStep.duration).sum / 60)) := by
  refine ⟨sumFrom_eq _ _, ?_⟩
  by_cases hdist :
    calculateDistance loc ((s.steps.getD s.currentStepIndex default).maneuverCoord) < 0.03
  · rcases hnotstop with hidx | hfar
    · rw [updateNavigation_advance s loc hcam hm hidx hdist, handleStepChange_routeInfo,
        sumFrom_eq]
      exact ⟨rfl, rfl⟩
    · exact absurd hdist hfar
  · rw [updateNavigation_far s loc hcam hm hne hdist, sumFrom_eq]
    exact ⟨rfl, rfl⟩

/-- A navigating state with the three-step list `[stepA, stepB, stepC]` and
active index 1, as in the spec's worked example. -/
def threeStepState : TripState :=
  { baseState with
      route := some geomAB
      steps := [stepA, stepB, stepC]
      currentStepIndex := 1
      isNavigating := true
      locationInterval := true }

/-- Claim C7, witness: with steps `[s0, s1, s2]` and active index 1, the
recomputed remaining distance is `s1.distance + s2.distance` (and likewise
for durations). -/
theorem c7_witness :
    (threeStepState.cameraRef = true ∧ threeStepState.isMounted = true ∧
      threeStepState.steps ≠ [] ∧
      threeStepState.currentStepIndex < threeStepState.steps.length - 1) ∧
    (sumFrom threeStepState.steps threeStepState.currentStepIndex =
      (((threeStepState.steps.drop threeStepState.currentStepIndex).map RouteStep.distance).sum,
       ((threeStepState.steps.drop threeStepState.currentStepIndex).map RouteStep.duration).sum) ∧
     (updateNavigation threeStepState ⟨9, 9⟩).routeInfo.remainingDistance =
       some (toFixed1
         (((threeStepState.steps.drop threeStepState.currentStepIndex).map RouteStep.distance).sum
           / 1000)) ∧
     (updateNavigation threeStepState ⟨9, 9⟩).routeInfo.remainingDuration =
       some (formatDuration
         (((threeStepState.steps.drop threeStepState.currentStepIndex).map RouteStep.duration).sum
           / 60))) ∧
    ((threeStepState.steps.drop threeStepState.currentStepIndex).map RouteStep.distance).sum =
      stepB.distance + stepC.distance := by
  refine ⟨⟨rfl, rfl, by decide, by decide⟩,
    c7_remaining_equals_suffix_sum threeStepState ⟨9, 9⟩ rfl rfl (by decide)
      (Or.inl (by decide)), ?_⟩
  simp [threeStepState, baseState, initialState, stepA, stepB, stepC]

/-- A reachable navigating state whose route fetch has not resolved yet:
camera attached, first location fix, a suggestion selected, then the user
taps Start before the directions response arrives. -/
def navNoRouteState : TripState :=
  startNavigation (selectSuggestion
    (getCurrentLocationResolve { initialState with cameraRef := true } (some (⟨1, 1⟩, 0)))
    ⟨"Place", ⟨2, 2⟩⟩)

lemma navNoRouteState_reachable : Reachable navNoRouteState :=
  .startNav (.select _ (.locationInit _ (.cameraSet true .init)))

/-- A reachable navigating state just before a poll tick: camera attached,
location fix, suggestion selected, two-step route installed, Start pressed,
poll timer installed. -/
def preTickState : TripState :=
  startNavigationTracking (startNavigation (fetchRouteResolve (selectSuggestion
    (getCurrentLocationResolve { initialState with cameraRef := true } (some (⟨1, 1⟩, 0)))
    ⟨"Place", ⟨2, 2⟩⟩) ⟨1, 1⟩ ⟨2, 2⟩ (.ok (some [routeAB]))))

lemma preTickState_reachable : Reachable preTickState :=
  .startTracking (.startNav (.routeResolve _ _ _
    (.select _ (.locationInit _ (.cameraSet true .init)))))

/-- The state of `preTickState` after the poll tick has stored the new
location fix (the first step's maneuver coordinate). -/
def tickedState : TripState :=
  { preTickState with currentLocation := some ⟨3, 3⟩, currentHeading := 0 }

/-- Claim C2, counterexample: the invariant `activeStepIndex <
length(route.steps)` is violated in a reachable state.  From `preTickState`
(two steps, index 0), a poll tick at the first step's maneuver coordinate
advances the index to 1 and triggers a re-route; when the re-route response
installs a one-step list, the step list is non-empty but
`length(steps) = 1 ≤ activeStepIndex = 1`. -/
theorem c2_counterexample :
    ∃ st : TripState, Reachable st ∧ st.steps ≠ [] ∧
      st.steps.length ≤ st.currentStepIndex := by
  have hA : pollTick preTickState (some (⟨3, 3⟩, 0)) = pollTickResolve preTickState ⟨3, 3⟩ 0 := by
    rw [pollTick.eq_def, if_neg (by decide)]
  have hB : pollTickResolve preTickState ⟨3, 3⟩ 0 = updateNavigation tickedState ⟨3, 3⟩ := by
    rw [pollTickResolve, if_pos (show preTickState.isMounted = true by rfl)]
    rfl
  have hnear : calculateDistance ⟨3, 3⟩
      ((tickedState.steps.getD tickedState.currentStepIndex default).maneuverCoord) < 0.03 := by
    have hc : (tickedState.steps.getD tickedState.currentStepIndex default).maneuverCoord =
        (⟨3, 3⟩ : Coord) := rfl
    rw [hc, calculateDistance_self]
    norm_num
  have hC := updateNavigation_advance tickedState ⟨3, 3⟩ rfl rfl (by decide) hnear
  refine ⟨fetchRouteResolve (pollTick preTickState (some (⟨3, 3⟩, 0))) ⟨3, 3⟩ ⟨4, 4⟩
      (.ok (some [routeC])),
    .routeResolve _ _ _ (.tick _ preTickState_reachable rfl), ?_, ?_⟩
  · rw [hA, hB, hC]
    decide
  · rw [hA, hB, hC]
    decide

/-- Claim C2, amended: `activeStepIndex` is a natural number (hence `0 ≤`
always holds); `handleStepChange` preserves `activeStepIndex <
length(steps)`, a route-fetch resolution always leaves `activeStepIndex`
unchanged (so it re-establishes the bound only if the new list is long
enough), and `stopNavigation`/`startNavigation` reset the index to 0
whenever they act.  The in-range invariant itself is NOT maintained: a step
advance followed by the re-route it triggers can install a step list of
length ≤ the advanced index (see the counterexample). -/
theorem c2_amended_index_management (s : TripState) (j : ℕ) (a b : Coord)
    (resp : FetchResult (Option (List DirectionsRoute)))
    (hinv : s.currentStepIndex < s.steps.length) :
    ((handleStepChange s j).currentStepIndex < (handleStepChange s j).steps.length) ∧
    (fetchRouteResolve s a b resp).currentStepIndex = s.currentStepIndex ∧
    ((stopNavigationSync s).currentStepIndex = 0 ∨ stopNavigationSync s = s) ∧
    ((startNavigation s).currentStepIndex = 0 ∨ startNavigation s = s) := by
  refine ⟨?_, fetchRouteResolve_currentStepIndex s a b resp, ?_, ?_⟩
  · rw [handleStepChange]
    split_ifs with hg
    · exact hinv
    · push_neg at hg
      exact hg.1
  · rw [stopNavigationSync]
    split_ifs
    · exact Or.inr rfl
    · exact Or.inl rfl
  · rw [startNavigation]
    split_ifs
    · exact Or.inl rfl
    · exact Or.inr rfl

/-- Claim C2, witness: the amended statement at the concrete mid-navigation
state (index 1, two steps) with a failed re-route response. -/
theorem c2_witness :
    midNavState.currentStepIndex < midNavState.steps.length ∧
    (((handleStepChange midNavState 0).currentStepIndex <
        (handleStepChange midNavState 0).steps.length) ∧
     (fetchRouteResolve midNavState ⟨1, 1⟩ ⟨2, 2⟩ .error).currentStepIndex =
        midNavState.currentStepIndex ∧
     ((stopNavigationSync midNavState).currentStepIndex = 0 ∨
        stopNavigationSync midNavState = midNavState) ∧
     ((startNavigation midNavState).currentStepIndex = 0 ∨
        startNavigation midNavState = midNavState)) :=
  ⟨by decide, c2_amended_index_management midNavState 0 ⟨1, 1⟩ ⟨2, 2⟩ .error (by decide)⟩

/-- Claim C3, counterexample: a reachable state with `navigating = true` and
`route = null`: `startNavigation` only checks `currentLocation`,
`destination` and the camera ref, so tapping Start before the first route
fetch resolves (or after it failed) turns the navigating flag on with no
route present. -/
theorem c3_counterexample :
    ∃ st : TripState, Reachable st ∧ st.isNavigating = true ∧ st.route = none :=
  ⟨navNoRouteState, navNoRouteState_reachable, rfl, rfl⟩

/-- Claim C3, amended: in every reachable state, `navigating = true` implies
`destination ≠ null`.  (The `route ≠ null` half of the claim fails, see the
counterexample: `startNavigation` does not require a route.) -/
theorem c3_navigating_implies_destination (s : TripState) (h : Reachable s) :
    s.isNavigating = true → s.destination ≠ none := by
  induction h with
  | init => simp [initialState]
  | cameraSet b hr ih => exact ih
  | interact b hr ih => exact ih
  | unmount hr ih => exact ih
  | locationInit ld hr ih =>
    match ld with
    | none => exact ih
    | some (c, hd) =>
      simp only [getCurrentLocationResolve]
      split_ifs <;> exact ih
  | typeQuery text hr ih =>
    simp only [onChangeQuery]
    split_ifs <;> exact ih
  | suggResolve resp hr ih =>
    match resp with
    | .error => exact ih
    | .ok none => exact ih
    | .ok (some f) =>
      simp only [fetchSuggestionsResolve]
      split_ifs <;> exact ih
  | select item hr ih =>
    simp only [selectSuggestion]
    split_ifs
    · intro hx
      simp
    · exact ih
  | routeResolve a b resp hr ih =>
    match resp with
    | .error => exact ih
    | .ok none => exact ih
    | .ok (some []) => exact ih
    | .ok (some (r :: t)) =>
      simp only [fetchRouteResolve]
      split_ifs
      · cases r.steps <;> exact ih
      · exact ih
  | startNav hr ih =>
    rw [startNavigation]
    split_ifs with hg
    · intro hx
      exact hg.2.1
    · exact ih
  | startTracking hr ih =>
    rw [startNavigationTracking]
    split_ifs <;> exact ih
  | tick ld hr hint ih =>
    intro hx
    rw [pollTick_destination]
    exact ih (pollTick_isNavigating _ _ hx)
  | stopNavStart hr ih =>
    intro hx
    rw [stopNavigationSync_destination]
    exact ih (stopNavigationSync_isNavigating _ hx)
  | stopNavFix ld hr ih =>
    match ld with
    | none => exact ih
    | some (c, hd) =>
      simp only [stopNavigationResolve]
      split_ifs <;> exact ih

/-- Claim C3, witness: the amended statement at a concrete reachable
navigating state. -/
theorem c3_witness :
    Reachable navNoRouteState ∧ navNoRouteState.isNavigating = true ∧
      navNoRouteState.destination ≠ none :=
  ⟨navNoRouteState_reachable, rfl,
    c3_navigating_implies_destination navNoRouteState navNoRouteState_reachable rfl⟩
